import Mathlib

/-!
Verification development for the Qualcomm GDSC power-domain regulator
sequencer (`drivers/clk/qcom/gdsc-regulator.c`).

The driver is shallowly embedded: each regmap is a stored 32-bit value,
each operation is a pure function from the driver state (plus external
inputs) to a result record carrying the return code, the updated state,
the ordered list of externally visible events (register reads/writes,
microsecond delays, clock and reset-line operations, parent-lock
operations) and the total number of poll-loop iterations performed.

The PWR_ON status bit (bit 31) of the polled register is driven by the
hardware, not by software writes; it is modelled as a time-indexed
oracle `trace : Nat -> Nat` giving the value the polled register reads
back on the i-th poll sample.  The parent supply's enabled state is the
integer input `parent` mirroring `regulator_is_enabled` (negative =
query error, 0 = disabled, positive = enabled).
-/

namespace Gdsc

/-! ### Register bit masks, from the `#define` block of the source -/

def PWR_ON_MASK : Nat := 2 ^ 31
def CLK_DIS_WAIT_MASK : Nat := 0xF * 2 ^ 12
def RETAIN_FF_ENABLE_MASK : Nat := 2 ^ 11
def SW_OVERRIDE_MASK : Nat := 2 ^ 2
def HW_CONTROL_MASK : Nat := 2 ^ 1
def SW_COLLAPSE_MASK : Nat := 2 ^ 0
def GMEM_CLAMP_IO_MASK : Nat := 2 ^ 0
def GMEM_RESET_MASK : Nat := 2 ^ 4
def BCR_BLK_ARES_BIT : Nat := 2 ^ 0
def TIMEOUT_US : Nat := 100

/-- 32-bit all-ones; `~m` on a `u32` is embedded as `U32_MASK ^^^ m`. -/
def U32_MASK : Nat := 2 ^ 32 - 1

/-! ### Registers -/

/-- The distinct regmaps a `struct gdsc` instance may hold. -/
inductive RegId where
  | primary        -- sc->regmap (GDSCR)
  | domainAddr     -- sc->domain_addr
  | swReset        -- sc->sw_reset
  | acdReset       -- sc->acd_reset
  | acdMiscReset   -- sc->acd_misc_reset
  | voteReg        -- sc->collapse_vote.regmap
  | hwCtrlReg      -- sc->hw_ctrl
deriving DecidableEq, Repr

/-- Stored 32-bit contents of each regmap (offset 0 only, as in the source). -/
structure Regs where
  primary : Nat
  domainAddr : Nat
  swReset : Nat
  acdReset : Nat
  acdMiscReset : Nat
  vote : Nat
  hwCtrl : Nat
deriving DecidableEq, Repr

def Regs.get (r : Regs) : RegId → Nat
  | .primary => r.primary
  | .domainAddr => r.domainAddr
  | .swReset => r.swReset
  | .acdReset => r.acdReset
  | .acdMiscReset => r.acdMiscReset
  | .voteReg => r.vote
  | .hwCtrlReg => r.hwCtrl

def Regs.setR (r : Regs) : RegId → Nat → Regs
  | .primary, v => { r with primary := v }
  | .domainAddr, v => { r with domainAddr := v }
  | .swReset, v => { r with swReset := v }
  | .acdReset, v => { r with acdReset := v }
  | .acdMiscReset, v => { r with acdMiscReset := v }
  | .voteReg, v => { r with vote := v }
  | .hwCtrlReg, v => { r with hwCtrl := v }

/-! ### Events and results -/

/-- Externally visible actions, in program order. -/
inductive Event where
  | read (r : RegId)
  | write (r : RegId) (value : Nat)
  | updateBits (r : RegId) (mask value : Nat)
  | delayUs (n : Nat)
  | clkEnable (idx : Nat)
  | clkDisable (idx : Nat)
  | resetAssert (i : Nat)
  | resetDeassert (i : Nat)
  | lockParent
  | unlockParent
deriving DecidableEq, Repr

/-- Return codes of the operations (0 / -EBUSY / -ETIMEDOUT / -EIO /
-EINVAL / a negative parent-query error). -/
inductive GRet where
  | ok
  | ebusy
  | etimedout
  | eio
  | einval
  | efault
deriving DecidableEq, Repr

/-- Mutable per-instance driver state (`struct gdsc` runtime fields plus
the stored register contents). -/
structure DrvState where
  regs : Regs
  is_gdsc_enabled : Bool
  is_gdsc_hw_ctrl_mode : Bool
  is_root_clk_voted : Bool
  resets_asserted : Bool
deriving DecidableEq, Repr

/-- Static configuration of one instance (fields of `struct gdsc` fixed
at probe time; `has_x` mirrors pointer-nullness of the optional regmaps). -/
structure GdscConfig where
  toggle_logic : Bool
  skip_disable_before_enable : Bool
  root_en : Bool
  force_root_en : Bool
  reset_aon : Bool
  no_status_check_on_disable : Bool
  retain_ff_enable : Bool
  has_sw_reset : Bool
  has_acd_reset : Bool
  has_acd_misc_reset : Bool
  has_domain_addr : Bool
  has_hw_ctrl : Bool
  has_collapse_vote : Bool
  vote_bit : Nat
  gds_timeout : Nat
  reset_count : Nat
  root_clk_idx : Nat
  has_supply : Bool
deriving DecidableEq, Repr

/-- Result of one operation. -/
structure GRes where
  ret : GRet
  st : DrvState
  evs : List Event
  pollIters : Nat
deriving DecidableEq, Repr

/-! ### Poll engine (`poll_gdsc_status`) -/

/-- The register `poll_gdsc_status` samples: `sc->hw_ctrl` when present,
else `sc->regmap`. -/
def polledReg (cfg : GdscConfig) : RegId :=
  if cfg.has_hw_ctrl then .hwCtrlReg else .primary

/-- `val & PWR_ON_MASK` as a boolean. -/
def pwrOnBit (x : Nat) : Bool := x &&& PWR_ON_MASK != 0

/-- The countdown loop of `poll_gdsc_status`.  Sample `i` (counted from
`start`) reads `trace (start + i)`; a failed sample costs one `udelay(1)`.
Returns (matched, loop iterations used, events). -/
def pollGo (reg : RegId) (want : Bool) (trace : Nat → Nat) (start : Nat) :
    Nat → Bool × Nat × List Event
  | 0 => (false, 0, [])
  | count + 1 =>
    if pwrOnBit (trace start) = want then (true, 1, [Event.read reg])
    else
      let r := pollGo reg want trace (start + 1) count
      (r.1, r.2.1 + 1, Event.read reg :: Event.delayUs 1 :: r.2.2)

/-- `poll_gdsc_status(sc, status)`: `want = true` for `ENABLED`,
`want = false` for `DISABLED`. -/
def poll_gdsc_status (cfg : GdscConfig) (want : Bool) (trace : Nat → Nat)
    (start : Nat) : Bool × Nat × List Event :=
  pollGo (polledReg cfg) want trace start cfg.gds_timeout

/-- The event trace of `n` failed poll samples: a read then a 1us delay,
`n` times over. -/
def pollFailEvs (reg : RegId) : Nat → List Event
  | 0 => []
  | n + 1 => Event.read reg :: Event.delayUs 1 :: pollFailEvs reg n

/-! ### `gdsc_is_enabled` -/

/-- `gdsc_is_enabled` (source lines 162-173): a pure state read. -/
def gdsc_is_enabled (cfg : GdscConfig) (st : DrvState) : Bool :=
  if !cfg.toggle_logic then !st.resets_asserted
  else if cfg.skip_disable_before_enable then false
  else st.is_gdsc_enabled

/-! ### `gdsc_enable` -/

/-- The `sc->sw_reset` block of `gdsc_enable` (lines 197-226): assert
`BCR_BLK_ARES_BIT`, mirror onto the ACD reset registers, barrier read,
1us hold, de-assert, mirror again, barrier read.  Returns (registers,
final local `regval`, events). -/
def enable_sw_reset (cfg : GdscConfig) (regs : Regs) (rv : Nat) :
    Regs × Nat × List Event :=
  if cfg.has_sw_reset then
    let r1 := regs.swReset ||| BCR_BLK_ARES_BIT
    let regsA := regs.setR .swReset r1
    let regsB := if cfg.has_acd_reset then regsA.setR .acdReset r1 else regsA
    let regsC :=
      if cfg.has_acd_misc_reset then regsB.setR .acdMiscReset r1 else regsB
    let r2 := r1 &&& (U32_MASK ^^^ BCR_BLK_ARES_BIT)
    let regsD := regsC.setR .swReset r2
    let regsE := if cfg.has_acd_reset then regsD.setR .acdReset r2 else regsD
    let regsF :=
      if cfg.has_acd_misc_reset then regsE.setR .acdMiscReset r2 else regsE
    (regsF, r2,
      [Event.read .swReset, Event.write .swReset r1] ++
      (if cfg.has_acd_reset then [Event.write .acdReset r1] else []) ++
      (if cfg.has_acd_misc_reset then [Event.write .acdMiscReset r1] else []) ++
      [Event.read .primary, Event.delayUs 1, Event.write .swReset r2] ++
      (if cfg.has_acd_reset then [Event.write .acdReset r2] else []) ++
      (if cfg.has_acd_misc_reset then [Event.write .acdMiscReset r2] else []) ++
      [Event.read .primary])
  else (regs, rv, [])

/-- The `sc->domain_addr` block of `gdsc_enable` (lines 228-260):
optional `GMEM_RESET_MASK` pulse when `reset_aon`, then clear
`GMEM_CLAMP_IO_MASK`, with barrier reads. -/
def enable_domain_addr (cfg : GdscConfig) (regs : Regs) (rv : Nat) :
    Regs × Nat × List Event :=
  if cfg.has_domain_addr then
    let a : Regs × List Event :=
      if cfg.reset_aon then
        let r1 := regs.domainAddr ||| GMEM_RESET_MASK
        let r2 := r1 &&& (U32_MASK ^^^ GMEM_RESET_MASK)
        ((regs.setR .domainAddr r1).setR .domainAddr r2,
         [Event.read .domainAddr, Event.write .domainAddr r1,
          Event.read .primary, Event.delayUs 1,
          Event.write .domainAddr r2, Event.read .primary])
      else (regs, [])
    let r3 := a.1.domainAddr &&& (U32_MASK ^^^ GMEM_CLAMP_IO_MASK)
    (a.1.setR .domainAddr r3, r3,
     a.2 ++ [Event.read .domainAddr, Event.write .domainAddr r3,
             Event.read .primary])
  else (regs, rv, [])

/-- The "Enable gdsc" flip of `gdsc_enable` (lines 262-271): either an
atomic clear of the vote bit via `regmap_update_bits`, or a
read-modify-write clearing `SW_COLLAPSE_MASK` on the primary register. -/
def enable_collapse (cfg : GdscConfig) (regs : Regs) (rv : Nat) :
    Regs × Nat × List Event :=
  if cfg.has_collapse_vote then
    let m := 2 ^ cfg.vote_bit
    let v := U32_MASK ^^^ m
    let nv := (regs.vote &&& (U32_MASK ^^^ m)) ||| (v &&& m)
    (regs.setR .voteReg nv, rv, [Event.updateBits .voteReg m v])
  else
    let r := regs.primary &&& (U32_MASK ^^^ SW_COLLAPSE_MASK)
    (regs.setR .primary r, r,
     [Event.read .primary, Event.write .primary r])

/-- The register sequencing of `gdsc_enable` before the status poll
(lines 196-275), ending with the barrier read and 1us settle delay. -/
def enable_seq (cfg : GdscConfig) (regs : Regs) (rv : Nat) :
    Regs × Nat × List Event :=
  let a := enable_sw_reset cfg regs rv
  let b := enable_domain_addr cfg a.1 a.2.1
  let c := enable_collapse cfg b.1 b.2.1
  (c.1, c.2.1,
   a.2.2 ++ b.2.2 ++ c.2.2 ++ [Event.read .primary, Event.delayUs 1])

/-- Shared tail of `gdsc_enable` (lines 323-341): two settle delays, the
`force_root_en` clock release, and `is_gdsc_enabled = true`. -/
def gdsc_enable_tail (cfg : GdscConfig) (st : DrvState) (evs : List Event)
    (iters : Nat) : GRes :=
  let evs1 := evs ++ [Event.delayUs 1, Event.delayUs 1]
  let st1 :=
    if cfg.force_root_en then { st with is_root_clk_voted := false } else st
  let evs2 :=
    if cfg.force_root_en then evs1 ++ [Event.clkDisable cfg.root_clk_idx]
    else evs1
  ⟨.ok, { st1 with is_gdsc_enabled := true }, evs2, iters⟩

/-- The retention-flop step of `gdsc_enable` (lines 313-316), then the
shared tail.  `rv` is the C local `regval` at that point. -/
def gdsc_enable_retain (cfg : GdscConfig) (st : DrvState) (evs : List Event)
    (iters : Nat) (rv : Nat) : GRes :=
  if cfg.retain_ff_enable ∧ rv &&& RETAIN_FF_ENABLE_MASK = 0 then
    let v := rv ||| RETAIN_FF_ENABLE_MASK
    gdsc_enable_tail cfg { st with regs := st.regs.setR .primary v }
      (evs ++ [Event.write .primary v]) iters
  else gdsc_enable_tail cfg st evs iters

/-- The status poll, diagnostics and one-shot re-poll of `gdsc_enable`
(lines 277-311).  `p1` is the first poll's outcome, `rv` the local
`regval` before the poll. -/
def gdsc_enable_post (cfg : GdscConfig) (st : DrvState) (trace : Nat → Nat)
    (evs : List Event) (rv : Nat) (p1 : Bool × Nat × List Event) : GRes :=
  if p1.1 then gdsc_enable_retain cfg st (evs ++ p1.2.2) p1.2.1 rv
  else
    let rv1 := st.regs.primary
    let evA := evs ++ p1.2.2 ++ [Event.read .primary]
    if cfg.has_hw_ctrl then
      let evB := evA ++ [Event.read .hwCtrlReg]
      let p2 := poll_gdsc_status cfg true trace p1.2.1
      if p2.1 then
        gdsc_enable_retain cfg st (evB ++ p2.2.2) (p1.2.1 + p2.2.1) rv1
      else
        ⟨.etimedout, st,
         evB ++ p2.2.2 ++ [Event.read .primary, Event.read .hwCtrlReg],
         p1.2.1 + p2.2.1⟩
    else
      ⟨.etimedout, st,
       evA ++ [Event.delayUs cfg.gds_timeout, Event.read .primary], p1.2.1⟩

/-- `gdsc_enable` (lines 175-342). -/
def gdsc_enable (cfg : GdscConfig) (st0 : DrvState) (trace : Nat → Nat) :
    GRes :=
  if cfg.skip_disable_before_enable then ⟨.ok, st0, [], 0⟩
  else
    let rootOn := cfg.root_en || cfg.force_root_en
    let st1 := if rootOn then { st0 with is_root_clk_voted := true } else st0
    let ev1 :=
      (if rootOn then [Event.clkEnable cfg.root_clk_idx] else []) ++
      [Event.read .primary]
    if st1.regs.primary &&& HW_CONTROL_MASK ≠ 0 then ⟨.ebusy, st1, ev1, 0⟩
    else if cfg.toggle_logic then
      let s := enable_seq cfg st1.regs st1.regs.primary
      let p1 := poll_gdsc_status cfg true trace 0
      gdsc_enable_post cfg { st1 with regs := s.1 } trace (ev1 ++ s.2.2)
        s.2.1 p1
    else
      gdsc_enable_tail cfg { st1 with resets_asserted := false }
        (ev1 ++ (List.range cfg.reset_count).map Event.resetDeassert) 0

/-! ### `gdsc_disable` -/

/-- Tail of `gdsc_disable` (lines 426-435): the root-clock release
condition and `is_gdsc_enabled = false`. -/
def gdsc_disable_tail (cfg : GdscConfig) (st : DrvState) (evs : List Event)
    (iters : Nat) (ret : GRet) : GRes :=
  let dis := (st.is_root_clk_voted && cfg.root_en) || cfg.force_root_en
  let st1 := if dis then { st with is_root_clk_voted := false } else st
  let evs1 :=
    if dis then evs ++ [Event.clkDisable cfg.root_clk_idx] else evs
  ⟨ret, { st1 with is_gdsc_enabled := false }, evs1, iters⟩

/-- Body of `gdsc_disable` (lines 368-435), after the parent-supply
check. -/
def gdsc_disable_body (cfg : GdscConfig) (st0 : DrvState)
    (trace : Nat → Nat) : GRes :=
  let st1 :=
    if cfg.force_root_en then { st0 with is_root_clk_voted := true } else st0
  let ev1 :=
    (if cfg.force_root_en then [Event.clkEnable cfg.root_clk_idx] else []) ++
    [Event.delayUs 1]
  if cfg.toggle_logic then
    let a : Regs × List Event :=
      if cfg.has_sw_reset && cfg.has_acd_misc_reset then
        let nv := (st1.regs.acdMiscReset &&& (U32_MASK ^^^ BCR_BLK_ARES_BIT))
          ||| (BCR_BLK_ARES_BIT &&& BCR_BLK_ARES_BIT)
        (st1.regs.setR .acdMiscReset nv,
         [Event.updateBits .acdMiscReset BCR_BLK_ARES_BIT BCR_BLK_ARES_BIT])
      else (st1.regs, [])
    let b : Regs × List Event :=
      if cfg.has_collapse_vote then
        let m := 2 ^ cfg.vote_bit
        let nv := (a.1.vote &&& (U32_MASK ^^^ m)) ||| (m &&& m)
        (a.1.setR .voteReg nv, [Event.updateBits .voteReg m m])
      else
        let r := a.1.primary ||| SW_COLLAPSE_MASK
        (a.1.setR .primary r, [Event.read .primary, Event.write .primary r])
    let c : GRet × Nat × List Event :=
      if cfg.no_status_check_on_disable then
        (.ok, 0, [Event.delayUs TIMEOUT_US])
      else
        let p := poll_gdsc_status cfg false trace 0
        if p.1 then (.ok, p.2.1, p.2.2)
        else (.etimedout, p.2.1, p.2.2 ++ [Event.read .primary])
    let d : Regs × List Event :=
      if cfg.has_domain_addr then
        let r := b.1.domainAddr ||| GMEM_CLAMP_IO_MASK
        (b.1.setR .domainAddr r,
         [Event.read .domainAddr, Event.write .domainAddr r])
      else (b.1, [])
    gdsc_disable_tail cfg { st1 with regs := d.1 }
      (ev1 ++ a.2 ++ b.2 ++ [Event.read .primary, Event.delayUs 1] ++
       c.2.2 ++ d.2) c.2.1 c.1
  else
    gdsc_disable_tail cfg { st1 with resets_asserted := true }
      (ev1 ++ ((List.range cfg.reset_count).reverse).map Event.resetAssert)
      0 .ok

/-- `gdsc_disable` (lines 344-442).  `parent` is the
`regulator_is_enabled(rdev->supply)` result: negative = query error,
`0` = parent disabled, positive = parent enabled. -/
def gdsc_disable (cfg : GdscConfig) (st0 : DrvState) (parent : Int)
    (trace : Nat → Nat) : GRes :=
  if cfg.has_supply then
    if parent < 0 then
      ⟨.efault, st0, [Event.lockParent, Event.unlockParent], 0⟩
    else if parent = 0 then
      ⟨.eio, st0, [Event.lockParent, Event.unlockParent], 0⟩
    else
      let r := gdsc_disable_body cfg st0 trace
      ⟨r.ret, r.st, Event.lockParent :: r.evs ++ [Event.unlockParent],
       r.pollIters⟩
  else gdsc_disable_body cfg st0 trace

/-! ### `gdsc_set_mode` -/

/-- The regulator modes accepted by `gdsc_set_mode`: `REGULATOR_MODE_FAST`
(hardware-autonomous), `REGULATOR_MODE_NORMAL` (software-controlled),
anything else. -/
inductive GMode where
  | fast
  | normal
  | other
deriving DecidableEq, Repr

/-- Body of `gdsc_set_mode` (lines 496-553), after the parent-supply
check. -/
def gdsc_set_mode_body (cfg : GdscConfig) (st : DrvState) (mode : GMode)
    (trace : Nat → Nat) : GRes :=
  let rv := st.regs.primary
  match mode with
  | .fast =>
    let v := rv ||| HW_CONTROL_MASK
    ⟨.ok,
     { st with regs := st.regs.setR .primary v, is_gdsc_hw_ctrl_mode := true },
     [Event.read .primary, Event.write .primary v, Event.read .primary,
      Event.delayUs 1], 0⟩
  | .normal =>
    let v := rv &&& (U32_MASK ^^^ HW_CONTROL_MASK)
    let st1 := { st with regs := st.regs.setR .primary v }
    let ev1 := [Event.read .primary, Event.write .primary v,
                Event.read .primary, Event.delayUs 1]
    if st.is_gdsc_enabled then
      let p := poll_gdsc_status cfg true trace 0
      if p.1 then
        ⟨.ok, { st1 with is_gdsc_hw_ctrl_mode := false }, ev1 ++ p.2.2, p.2.1⟩
      else ⟨.etimedout, st1, ev1 ++ p.2.2, p.2.1⟩
    else ⟨.ok, { st1 with is_gdsc_hw_ctrl_mode := false }, ev1, 0⟩
  | .other => ⟨.einval, st, [Event.read .primary], 0⟩

/-- `gdsc_set_mode` (lines 466-560), with the same parent-supply check
and locking as `gdsc_disable`. -/
def gdsc_set_mode (cfg : GdscConfig) (st : DrvState) (parent : Int)
    (mode : GMode) (trace : Nat → Nat) : GRes :=
  if cfg.has_supply then
    if parent < 0 then
      ⟨.efault, st, [Event.lockParent, Event.unlockParent], 0⟩
    else if parent = 0 then
      ⟨.eio, st, [Event.lockParent, Event.unlockParent], 0⟩
    else
      let r := gdsc_set_mode_body cfg st mode trace
      ⟨r.ret, r.st, Event.lockParent :: r.evs ++ [Event.unlockParent],
       r.pollIters⟩
  else gdsc_set_mode_body cfg st mode trace

/-! ### Event classifiers -/

/-- Is the event a register mutation (a `regmap_write` or
`regmap_update_bits`)? -/
def isWrite : Event → Bool
  | .write _ _ => true
  | .updateBits _ _ _ => true
  | _ => false

/-- Does the event mutate the given register? -/
def writesReg (e : Event) (r : RegId) : Bool :=
  match e with
  | .write r2 _ => r2 == r
  | .updateBits r2 _ _ => r2 == r
  | _ => false

/-- The events of a trace that mutate the given register, in order. -/
def regMutations (l : List Event) (r : RegId) : List Event :=
  l.filter (fun e => writesReg e r)

/-- The reset-line events of a trace, in order. -/
def resetEvs (l : List Event) : List Event :=
  l.filter fun e =>
    match e with
    | .resetAssert _ => true
    | .resetDeassert _ => true
    | _ => false

/-- Register access or delay: the only event kinds a pure register
sequence may emit (no clock, reset-line, or lock traffic). -/
def isRegOrDelay : Event → Bool
  | .read _ => true
  | .write _ _ => true
  | .updateBits _ _ _ => true
  | .delayUs _ => true
  | _ => false

/-- Event is not a parent-lock operation. -/
def notLock : Event → Bool
  | .lockParent => false
  | .unlockParent => false
  | _ => true

/-- Vote-discipline check: the event neither mutates the primary
register nor touches the vote register outside bit `k`. -/
def voteSafe (k : Nat) : Event → Bool
  | .write r _ => r != .primary
  | .updateBits r m _ => r != .primary && (r != .voteReg || m == 2 ^ k)
  | _ => true

theorem isRegOrDelay_notLock (e : Event) (h : isRegOrDelay e = true) :
    notLock e = true := by
  cases e <;> simp_all [isRegOrDelay, notLock]

theorem isRegOrDelay_notClkDis (e : Event) (h : isRegOrDelay e = true)
    (i : Nat) : e ≠ Event.clkDisable i := by
  cases e <;> simp_all [isRegOrDelay]

/-! ## Poll-engine lemmas -/

theorem pollGo_timeout (reg : RegId) (want : Bool) (trace : Nat → Nat) :
    ∀ (count start : Nat),
      (∀ i, i < count → pwrOnBit (trace (start + i)) ≠ want) →
      pollGo reg want trace start count =
        (false, count, pollFailEvs reg count) := by
  intro count
  induction count with
  | zero => intro start _; rfl
  | succ n ih =>
    intro start h
    have h0 : pwrOnBit (trace start) ≠ want := by
      have := h 0 (Nat.succ_pos n)
      simpa using this
    have hrec := ih (start + 1) (by
      intro i hi
      have := h (i + 1) (Nat.succ_lt_succ hi)
      have harith : start + (i + 1) = start + 1 + i := by omega
      rwa [harith] at this)
    simp only [pollGo, if_neg h0, hrec, pollFailEvs]

theorem pollGo_success (reg : RegId) (want : Bool) (trace : Nat → Nat) :
    ∀ (count start j : Nat), j < count →
      pwrOnBit (trace (start + j)) = want →
      (∀ i, i < j → pwrOnBit (trace (start + i)) ≠ want) →
      pollGo reg want trace start count =
        (true, j + 1, pollFailEvs reg j ++ [Event.read reg]) := by
  intro count
  induction count with
  | zero => intro start j hj; omega
  | succ n ih =>
    intro start j hj hm hpre
    cases j with
    | zero =>
      have h0 : pwrOnBit (trace start) = want := by simpa using hm
      simp only [pollGo, if_pos h0, pollFailEvs, List.nil_append]
    | succ k =>
      have h0 : pwrOnBit (trace start) ≠ want := by
        have := hpre 0 (Nat.succ_pos k)
        simpa using this
      have hrec := ih (start + 1) k (by omega)
        (by have harith : start + (k + 1) = start + 1 + k := by omega
            rwa [harith] at hm)
        (by intro i hi
            have := hpre (i + 1) (Nat.succ_lt_succ hi)
            have harith : start + (i + 1) = start + 1 + i := by omega
            rwa [harith] at this)
      simp only [pollGo, if_neg h0, hrec, pollFailEvs, List.cons_append]

theorem pollGo_evs (reg : RegId) (want : Bool) (trace : Nat → Nat) :
    ∀ (count start : Nat),
      ∀ e ∈ (pollGo reg want trace start count).2.2,
        e = Event.read reg ∨ e = Event.delayUs 1 := by
  intro count
  induction count with
  | zero => intro start e he; simp [pollGo] at he
  | succ n ih =>
    intro start e he
    simp only [pollGo] at he
    by_cases h0 : pwrOnBit (trace start) = want
    · rw [if_pos h0] at he
      simp at he
      exact Or.inl he
    · rw [if_neg h0] at he
      simp only [List.mem_cons] at he
      rcases he with h | h | h
      · exact Or.inl h
      · exact Or.inr h
      · exact ih (start + 1) e h

/-- Specialization: a trace that never shows the wanted polarity makes
the poll engine time out after exactly `gds_timeout` samples. -/
theorem poll_never (cfg : GdscConfig) (want : Bool) (trace : Nat → Nat)
    (start : Nat) (h : ∀ i, pwrOnBit (trace i) ≠ want) :
    poll_gdsc_status cfg want trace start =
      (false, cfg.gds_timeout, pollFailEvs (polledReg cfg) cfg.gds_timeout) :=
  pollGo_timeout _ _ _ _ _ (fun i _ => h (start + i))

theorem pollFailEvs_mem (reg : RegId) :
    ∀ (n : Nat), ∀ e ∈ pollFailEvs reg n,
      e = Event.read reg ∨ e = Event.delayUs 1 := by
  intro n
  induction n with
  | zero => intro e he; simp [pollFailEvs] at he
  | succ k ih =>
    intro e he
    simp only [pollFailEvs, List.mem_cons] at he
    rcases he with h | h | h
    · exact Or.inl h
    · exact Or.inr h
    · exact ih e h

theorem pollGo_all (reg : RegId) (want : Bool) (trace : Nat → Nat)
    (count start : Nat) :
    ((pollGo reg want trace start count).2.2).all isRegOrDelay = true := by
  rw [List.all_eq_true]
  intro e he
  rcases pollGo_evs reg want trace count start e he with h | h <;>
    simp [h, isRegOrDelay]

/-! ## Block-level lemmas about the enable sequencing -/

theorem enable_sw_reset_all (cfg : GdscConfig) (regs : Regs) (rv : Nat) :
    ((enable_sw_reset cfg regs rv).2.2).all isRegOrDelay = true := by
  cases h1 : cfg.has_sw_reset <;> cases h2 : cfg.has_acd_reset <;>
    cases h3 : cfg.has_acd_misc_reset <;>
    simp [enable_sw_reset, h1, h2, h3, isRegOrDelay]

theorem enable_domain_addr_all (cfg : GdscConfig) (regs : Regs) (rv : Nat) :
    ((enable_domain_addr cfg regs rv).2.2).all isRegOrDelay = true := by
  cases h1 : cfg.has_domain_addr <;> cases h2 : cfg.reset_aon <;>
    simp [enable_domain_addr, h1, h2, isRegOrDelay]

theorem enable_collapse_all (cfg : GdscConfig) (regs : Regs) (rv : Nat) :
    ((enable_collapse cfg regs rv).2.2).all isRegOrDelay = true := by
  cases h1 : cfg.has_collapse_vote <;>
    simp [enable_collapse, h1, isRegOrDelay]

theorem enable_seq_all (cfg : GdscConfig) (regs : Regs) (rv : Nat) :
    ((enable_seq cfg regs rv).2.2).all isRegOrDelay = true := by
  unfold enable_seq
  simp only [List.all_append, Bool.and_eq_true]
  exact ⟨⟨⟨enable_sw_reset_all _ _ _,
    enable_domain_addr_all _ _ _⟩, enable_collapse_all _ _ _⟩, by decide⟩

/-- Register frame of the sw-reset block: it only touches the reset
registers. -/
theorem enable_sw_reset_frame (cfg : GdscConfig) (regs : Regs) (rv : Nat) :
    (enable_sw_reset cfg regs rv).1.primary = regs.primary ∧
    (enable_sw_reset cfg regs rv).1.vote = regs.vote ∧
    (enable_sw_reset cfg regs rv).1.domainAddr = regs.domainAddr := by
  cases h1 : cfg.has_sw_reset <;> cases h2 : cfg.has_acd_reset <;>
    cases h3 : cfg.has_acd_misc_reset <;>
    simp [enable_sw_reset, Regs.setR, h1, h2, h3]

/-- Register frame of the domain-address block: it only touches the
domain-address register. -/
theorem enable_domain_addr_frame (cfg : GdscConfig) (regs : Regs)
    (rv : Nat) :
    (enable_domain_addr cfg regs rv).1.primary = regs.primary ∧
    (enable_domain_addr cfg regs rv).1.vote = regs.vote := by
  cases h1 : cfg.has_domain_addr <;> cases h2 : cfg.reset_aon <;>
    simp [enable_domain_addr, Regs.setR, h1, h2]

/-- In vote mode the collapse flip leaves the primary register alone and
clears exactly the vote bit. -/
theorem enable_collapse_vote (cfg : GdscConfig) (regs : Regs) (rv : Nat)
    (hv : cfg.has_collapse_vote = true) :
    (enable_collapse cfg regs rv).1.primary = regs.primary ∧
    (enable_collapse cfg regs rv).1.vote =
      (regs.vote &&& (U32_MASK ^^^ 2 ^ cfg.vote_bit)) |||
        ((U32_MASK ^^^ 2 ^ cfg.vote_bit) &&& 2 ^ cfg.vote_bit) ∧
    (enable_collapse cfg regs rv).2.2 =
      [Event.updateBits .voteReg (2 ^ cfg.vote_bit)
        (U32_MASK ^^^ 2 ^ cfg.vote_bit)] := by
  simp [enable_collapse, hv, Regs.setR]

/-- Generic bit-frame for a masked update confined to bit `k`: every
32-bit position other than `k` is preserved. -/
theorem updateBits_testBit (x w k j : Nat) (hj : j < 32) (hne : j ≠ k) :
    ((x &&& (U32_MASK ^^^ 2 ^ k)) ||| (w &&& 2 ^ k)).testBit j =
      x.testBit j := by
  have h1 : decide (j < 32) = true := by simp [hj]
  have h2 : decide (k = j) = false := by
    simp only [decide_eq_false_iff_not]
    exact fun h => hne h.symm
  simp only [U32_MASK, Nat.testBit_lor, Nat.testBit_land, Nat.testBit_xor,
    Nat.testBit_two_pow, Nat.testBit_two_pow_sub_one, h1, h2]
  simp

/-! ## Tail and retry lemmas for the two operations -/

theorem gdsc_enable_tail_spec (cfg : GdscConfig) (st : DrvState)
    (evs : List Event) (iters : Nat) :
    (gdsc_enable_tail cfg st evs iters).ret = .ok ∧
    (gdsc_enable_tail cfg st evs iters).st.is_gdsc_enabled = true ∧
    (gdsc_enable_tail cfg st evs iters).st.resets_asserted =
      st.resets_asserted ∧
    (gdsc_enable_tail cfg st evs iters).st.regs = st.regs ∧
    (gdsc_enable_tail cfg st evs iters).pollIters = iters := by
  cases h : cfg.force_root_en <;> simp [gdsc_enable_tail, h]

theorem gdsc_enable_retain_spec (cfg : GdscConfig) (st : DrvState)
    (evs : List Event) (iters : Nat) (rv : Nat) :
    (gdsc_enable_retain cfg st evs iters rv).ret = .ok ∧
    (gdsc_enable_retain cfg st evs iters rv).st.is_gdsc_enabled = true ∧
    (gdsc_enable_retain cfg st evs iters rv).st.resets_asserted =
      st.resets_asserted := by
  unfold gdsc_enable_retain
  split
  · exact ⟨(gdsc_enable_tail_spec _ _ _ _).1,
      (gdsc_enable_tail_spec _ _ _ _).2.1,
      (gdsc_enable_tail_spec _ _ _ _).2.2.1⟩
  · exact ⟨(gdsc_enable_tail_spec _ _ _ _).1,
      (gdsc_enable_tail_spec _ _ _ _).2.1,
      (gdsc_enable_tail_spec _ _ _ _).2.2.1⟩

/-- When retention flops are not configured the retain step is the
identity. -/
theorem gdsc_enable_retain_no_retain (cfg : GdscConfig) (st : DrvState)
    (evs : List Event) (iters : Nat) (rv : Nat)
    (h : cfg.retain_ff_enable = false) :
    gdsc_enable_retain cfg st evs iters rv =
      gdsc_enable_tail cfg st evs iters := by
  unfold gdsc_enable_retain
  rw [if_neg]
  simp [h]

/-- The post-poll logic either lands in the retain step (success,
possibly after the one-shot re-poll) or returns a timeout without
touching the state. -/
theorem gdsc_enable_post_cases (cfg : GdscConfig) (st : DrvState)
    (trace : Nat → Nat) (evs : List Event) (rv : Nat)
    (p1 : Bool × Nat × List Event) :
    (∃ evs2 iters rv2, gdsc_enable_post cfg st trace evs rv p1 =
        gdsc_enable_retain cfg st evs2 iters rv2) ∨
    ((gdsc_enable_post cfg st trace evs rv p1).ret = .etimedout ∧
     (gdsc_enable_post cfg st trace evs rv p1).st = st) := by
  unfold gdsc_enable_post
  dsimp only
  split
  · exact Or.inl ⟨_, _, _, rfl⟩
  · split
    · split
      · exact Or.inl ⟨_, _, _, rfl⟩
      · exact Or.inr ⟨rfl, rfl⟩
    · exact Or.inr ⟨rfl, rfl⟩

theorem gdsc_disable_tail_spec (cfg : GdscConfig) (st : DrvState)
    (evs : List Event) (iters : Nat) (ret : GRet) :
    (gdsc_disable_tail cfg st evs iters ret).ret = ret ∧
    (gdsc_disable_tail cfg st evs iters ret).st.is_gdsc_enabled = false ∧
    (gdsc_disable_tail cfg st evs iters ret).st.resets_asserted =
      st.resets_asserted ∧
    (gdsc_disable_tail cfg st evs iters ret).st.regs = st.regs ∧
    (gdsc_disable_tail cfg st evs iters ret).pollIters = iters := by
  unfold gdsc_disable_tail
  dsimp only
  split <;> simp

/-! ## Enable/disable success implies the cached state flips -/

theorem gdsc_enable_post_ok_enabled (cfg : GdscConfig) (st : DrvState)
    (trace : Nat → Nat) (evs : List Event) (rv : Nat)
    (p1 : Bool × Nat × List Event) :
    (gdsc_enable_post cfg st trace evs rv p1).ret = .ok →
    (gdsc_enable_post cfg st trace evs rv p1).st.is_gdsc_enabled = true := by
  rcases gdsc_enable_post_cases cfg st trace evs rv p1 with
    ⟨e2, i2, r2, heq⟩ | hto
  · rw [heq]
    intro _
    exact (gdsc_enable_retain_spec _ _ _ _ _).2.1
  · rw [hto.1]
    intro hok
    exact absurd hok (by simp)

theorem enable_ok_is_enabled (cfg : GdscConfig) (st : DrvState)
    (trace : Nat → Nat) (hskip : cfg.skip_disable_before_enable = false) :
    (gdsc_enable cfg st trace).ret = .ok →
    gdsc_is_enabled cfg (gdsc_enable cfg st trace).st = true := by
  unfold gdsc_enable
  simp only [hskip, Bool.false_eq_true, if_false]
  split <;> split
  case isTrue.isTrue => intro hok; exact absurd hok (by simp)
  case isFalse.isTrue => intro hok; exact absurd hok (by simp)
  all_goals split
  all_goals intro hok
  case isTrue =>
    have h2 := gdsc_enable_post_ok_enabled cfg _ trace _ _ _ hok
    simp only [gdsc_is_enabled, hskip, ‹cfg.toggle_logic = true›,
      Bool.not_true, Bool.false_eq_true, if_false]
    simpa using h2
  case isFalse =>
    simp [gdsc_is_enabled, ‹¬cfg.toggle_logic = true›,
      (gdsc_enable_tail_spec _ _ _ _).2.1,
      (gdsc_enable_tail_spec _ _ _ _).2.2.1]
  case isTrue =>
    have h2 := gdsc_enable_post_ok_enabled cfg _ trace _ _ _ hok
    simp only [gdsc_is_enabled, hskip, ‹cfg.toggle_logic = true›,
      Bool.not_true, Bool.false_eq_true, if_false]
    simpa using h2
  case isFalse =>
    simp [gdsc_is_enabled, ‹¬cfg.toggle_logic = true›,
      (gdsc_enable_tail_spec _ _ _ _).2.1,
      (gdsc_enable_tail_spec _ _ _ _).2.2.1]

theorem disable_body_is_enabled (cfg : GdscConfig) (st : DrvState)
    (trace : Nat → Nat) :
    gdsc_is_enabled cfg (gdsc_disable_body cfg st trace).st = false := by
  unfold gdsc_disable_body
  dsimp only
  split
  · simp only [gdsc_is_enabled, ‹cfg.toggle_logic = true›, Bool.not_true,
      Bool.false_eq_true, if_false]
    split
    · rfl
    · exact (gdsc_disable_tail_spec _ _ _ _ _).2.1
  · have htog : cfg.toggle_logic = false := by
      simpa using ‹¬cfg.toggle_logic = true›
    simp [gdsc_is_enabled, htog, (gdsc_disable_tail_spec _ _ _ _ _).2.2.1]

theorem disable_ok_is_enabled (cfg : GdscConfig) (st : DrvState)
    (parent : Int) (trace : Nat → Nat) :
    (gdsc_disable cfg st parent trace).ret = .ok →
    gdsc_is_enabled cfg (gdsc_disable cfg st parent trace).st = false := by
  unfold gdsc_disable
  split
  · split
    · intro hok; exact absurd hok (by simp)
    · split
      · intro hok; exact absurd hok (by simp)
      · intro _
        exact disable_body_is_enabled cfg st trace
  · intro _
    exact disable_body_is_enabled cfg st trace

theorem pollFailEvs_all (reg : RegId) (n : Nat) :
    (pollFailEvs reg n).all isRegOrDelay = true := by
  rw [List.all_eq_true]
  intro e he
  rcases pollFailEvs_mem reg n e he with h | h <;> simp [h, isRegOrDelay]

theorem no_clkDis_of_all (l : List Event)
    (h : l.all isRegOrDelay = true) (i : Nat) :
    Event.clkDisable i ∉ l := by
  intro hm
  exact isRegOrDelay_notClkDis _ (List.all_eq_true.mp h _ hm) i rfl

set_option maxHeartbeats 1000000 in
/-- The whole timeout behaviour of `gdsc_enable` on a register-toggled
domain whose status never reports powered: the error, the exact poll
iteration count (doubled by the one-shot re-poll when a hardware-status
register exists), and the fact that the root clock is left enabled
(no `clk_disable_unprepare` on any timeout path). -/
theorem gdsc_enable_timeout (cfg : GdscConfig) (st : DrvState)
    (trace : Nat → Nat)
    (hskip : cfg.skip_disable_before_enable = false)
    (htog : cfg.toggle_logic = true)
    (hbusy : st.regs.primary &&& HW_CONTROL_MASK = 0)
    (hnever : ∀ i, pwrOnBit (trace i) = false) :
    (gdsc_enable cfg st trace).ret = .etimedout ∧
    (gdsc_enable cfg st trace).pollIters =
      (if cfg.has_hw_ctrl then 2 * cfg.gds_timeout else cfg.gds_timeout) ∧
    (gdsc_enable cfg st trace).st.is_root_clk_voted =
      ((cfg.root_en || cfg.force_root_en) || st.is_root_clk_voted) ∧
    (∀ i, Event.clkDisable i ∉ (gdsc_enable cfg st trace).evs) ∧
    ((cfg.root_en || cfg.force_root_en) = true →
      Event.clkEnable cfg.root_clk_idx ∈ (gdsc_enable cfg st trace).evs) := by
  have hnv : ∀ i, pwrOnBit (trace i) ≠ true := fun i => by simp [hnever i]
  unfold gdsc_enable
  simp only [hskip, Bool.false_eq_true, if_false]
  split
  all_goals simp only [hbusy, htog, ne_eq, eq_self_iff_true, not_true,
    if_false, if_true]
  all_goals rw [poll_never cfg true trace 0 hnv]
  all_goals unfold gdsc_enable_post
  all_goals dsimp only
  all_goals simp only [Bool.false_eq_true, if_false]
  all_goals split
  all_goals try rw [poll_never cfg true trace cfg.gds_timeout hnv]
  all_goals dsimp only
  all_goals simp only [Bool.false_eq_true, if_false]
  all_goals refine ⟨trivial, ?_, ?_, ?_, ?_⟩
  all_goals try simp_all
  all_goals try omega
  all_goals intro i
  all_goals exact ⟨no_clkDis_of_all _ (enable_seq_all cfg _ _) i,
    no_clkDis_of_all _ (pollFailEvs_all _ _) i⟩

set_option maxHeartbeats 1000000 in
/-- Timeout behaviour of the `gdsc_disable` body on a register-toggled
domain whose status-checking is not suppressed and whose status never
reports un-powered: the timeout error is returned, yet the clamp
re-assert, the root-clock release and the cached-state update all still
happen. -/
theorem gdsc_disable_body_timeout (cfg : GdscConfig) (st : DrvState)
    (trace : Nat → Nat)
    (htog : cfg.toggle_logic = true)
    (hnostat : cfg.no_status_check_on_disable = false)
    (hnever : ∀ i, pwrOnBit (trace i) = true) :
    (gdsc_disable_body cfg st trace).ret = .etimedout ∧
    (gdsc_disable_body cfg st trace).pollIters = cfg.gds_timeout ∧
    (gdsc_disable_body cfg st trace).st.is_gdsc_enabled = false ∧
    (cfg.has_domain_addr = true →
      (gdsc_disable_body cfg st trace).st.regs.domainAddr =
        st.regs.domainAddr ||| GMEM_CLAMP_IO_MASK ∧
      Event.write .domainAddr (st.regs.domainAddr ||| GMEM_CLAMP_IO_MASK) ∈
        (gdsc_disable_body cfg st trace).evs) ∧
    (((st.is_root_clk_voted && cfg.root_en) || cfg.force_root_en) = true →
      (gdsc_disable_body cfg st trace).st.is_root_clk_voted = false ∧
      Event.clkDisable cfg.root_clk_idx ∈
        (gdsc_disable_body cfg st trace).evs) := by
  have hnv : ∀ i, pwrOnBit (trace i) ≠ false := fun i => by simp [hnever i]
  unfold gdsc_disable_body
  dsimp only
  simp only [htog, hnostat, if_true, Bool.false_eq_true, if_false]
  rw [poll_never cfg false trace 0 hnv]
  unfold gdsc_disable_tail
  dsimp only
  cases hf : cfg.force_root_en <;> cases hda : cfg.has_domain_addr <;>
    cases hsw : (cfg.has_sw_reset && cfg.has_acd_misc_reset) <;>
    cases hv : cfg.has_collapse_vote <;>
    simp_all [Regs.setR]
  all_goals try (split <;> simp_all)

/-- `gdsc_disable_body_timeout` lifted through the parent-supply
wrapper. -/
theorem gdsc_disable_timeout (cfg : GdscConfig) (st : DrvState)
    (parent : Int) (trace : Nat → Nat)
    (htog : cfg.toggle_logic = true)
    (hnostat : cfg.no_status_check_on_disable = false)
    (hpar : cfg.has_supply = true → 0 < parent)
    (hnever : ∀ i, pwrOnBit (trace i) = true) :
    (gdsc_disable cfg st parent trace).ret = .etimedout ∧
    (gdsc_disable cfg st parent trace).pollIters = cfg.gds_timeout ∧
    (gdsc_disable cfg st parent trace).st.is_gdsc_enabled = false ∧
    (cfg.has_domain_addr = true →
      (gdsc_disable cfg st parent trace).st.regs.domainAddr =
        st.regs.domainAddr ||| GMEM_CLAMP_IO_MASK ∧
      Event.write .domainAddr (st.regs.domainAddr ||| GMEM_CLAMP_IO_MASK) ∈
        (gdsc_disable cfg st parent trace).evs) ∧
    (((st.is_root_clk_voted && cfg.root_en) || cfg.force_root_en) = true →
      (gdsc_disable cfg st parent trace).st.is_root_clk_voted = false ∧
      Event.clkDisable cfg.root_clk_idx ∈
        (gdsc_disable cfg st parent trace).evs) := by
  have hb := gdsc_disable_body_timeout cfg st trace htog hnostat hnever
  unfold gdsc_disable
  split
  · have hp := hpar ‹cfg.has_supply = true›
    rw [if_neg (by omega), if_neg (by omega)]
    dsimp only
    refine ⟨hb.1, hb.2.1, hb.2.2.1, ?_, ?_⟩
    · intro hda
      exact ⟨(hb.2.2.2.1 hda).1,
        by simp [List.mem_cons, List.mem_append, (hb.2.2.2.1 hda).2]⟩
    · intro hrc
      exact ⟨(hb.2.2.2.2 hrc).1,
        by simp [List.mem_cons, List.mem_append, (hb.2.2.2.2 hrc).2]⟩
  · exact hb

/-! ## Lock-balance machinery -/

theorem all_notLock_count (l : List Event) (h : l.all notLock = true) :
    l.count Event.lockParent = 0 ∧ l.count Event.unlockParent = 0 := by
  constructor <;>
    (rw [List.count_eq_zero]
     intro hm
     have := List.all_eq_true.mp h _ hm
     simp [notLock] at this)

theorem poll_evs_notLock (cfg : GdscConfig) (want : Bool)
    (trace : Nat → Nat) (start : Nat) :
    ((poll_gdsc_status cfg want trace start).2.2).all notLock = true := by
  rw [List.all_eq_true]
  intro e he
  rcases pollGo_evs _ want trace cfg.gds_timeout start e he with h | h <;>
    simp [h, notLock]

theorem resetAssertMap_notLock (l : List Nat) :
    (l.map Event.resetAssert).all notLock = true := by
  rw [List.all_eq_true]
  intro e he
  simp only [List.mem_map] at he
  obtain ⟨i, _, rfl⟩ := he
  rfl

set_option maxHeartbeats 1600000 in
/-- The body of `gdsc_disable` (everything between lock and unlock)
performs no parent-lock operation of its own. -/
theorem gdsc_disable_body_notLock (cfg : GdscConfig) (st : DrvState)
    (trace : Nat → Nat) :
    ((gdsc_disable_body cfg st trace).evs).all notLock = true := by
  unfold gdsc_disable_body gdsc_disable_tail
  dsimp only
  iterate 8 (all_goals try split)
  all_goals simp [List.all_append, notLock, poll_evs_notLock,
    resetAssertMap_notLock]

/-- The body of `gdsc_set_mode` performs no parent-lock operation of
its own. -/
theorem gdsc_set_mode_body_notLock (cfg : GdscConfig) (st : DrvState)
    (mode : GMode) (trace : Nat → Nat) :
    ((gdsc_set_mode_body cfg st mode trace).evs).all notLock = true := by
  unfold gdsc_set_mode_body
  dsimp only
  cases mode
  all_goals iterate 4 (all_goals try split)
  all_goals simp [List.all_append, notLock, poll_evs_notLock]

/-! ## Reset-event and register-mutation extraction lemmas -/

theorem resetEvs_deassert_map (l : List Nat) :
    resetEvs (l.map Event.resetDeassert) = l.map Event.resetDeassert := by
  unfold resetEvs
  rw [List.filter_eq_self]
  intro e he
  simp only [List.mem_map] at he
  obtain ⟨i, _, rfl⟩ := he
  rfl

theorem resetEvs_assert_map_reverse (l : List Nat) :
    resetEvs ((l.map Event.resetAssert).reverse) =
      (l.map Event.resetAssert).reverse := by
  unfold resetEvs
  rw [List.filter_eq_self]
  intro e he
  rw [List.mem_reverse] at he
  simp only [List.mem_map] at he
  obtain ⟨i, _, rfl⟩ := he
  rfl

theorem resetEvs_assert_map (l : List Nat) :
    resetEvs (l.map Event.resetAssert) = l.map Event.resetAssert := by
  unfold resetEvs
  rw [List.filter_eq_self]
  intro e he
  simp only [List.mem_map] at he
  obtain ⟨i, _, rfl⟩ := he
  rfl

theorem regMutations_poll (cfg : GdscConfig) (want : Bool)
    (trace : Nat → Nat) (start : Nat) (r : RegId) :
    regMutations ((poll_gdsc_status cfg want trace start).2.2) r = [] := by
  unfold regMutations
  rw [List.filter_eq_nil_iff]
  intro e he
  rcases pollGo_evs _ want trace cfg.gds_timeout start e he with h | h <;>
    simp [h, writesReg]

/-- Clearing one bit through a 32-bit complement mask preserves every
other 32-bit position. -/
theorem clear_bit_testBit (x k j : Nat) (hj : j < 32) (hne : j ≠ k) :
    (x &&& (U32_MASK ^^^ 2 ^ k)).testBit j = x.testBit j := by
  have h1 : decide (j < 32) = true := by simp [hj]
  have h2 : decide (k = j) = false := by
    simp only [decide_eq_false_iff_not]
    exact fun h => hne h.symm
  simp only [U32_MASK, Nat.testBit_land, Nat.testBit_xor,
    Nat.testBit_two_pow, Nat.testBit_two_pow_sub_one, h1, h2]
  simp

/-- Setting one bit preserves every other position. -/
theorem set_bit_testBit (x k j : Nat) (hne : j ≠ k) :
    (x ||| 2 ^ k).testBit j = x.testBit j := by
  have h2 : decide (k = j) = false := by
    simp only [decide_eq_false_iff_not]
    exact fun h => hne h.symm
  simp only [Nat.testBit_lor, Nat.testBit_two_pow, h2]
  simp

theorem resetEvs_append (l1 l2 : List Event) :
    resetEvs (l1 ++ l2) = resetEvs l1 ++ resetEvs l2 := by
  unfold resetEvs
  exact List.filter_append _ _

theorem resetEvs_nil : resetEvs [] = [] := rfl

theorem resetEvs_read (r : RegId) (l : List Event) :
    resetEvs (Event.read r :: l) = resetEvs l := by
  simp [resetEvs]

theorem resetEvs_write (r : RegId) (v : Nat) (l : List Event) :
    resetEvs (Event.write r v :: l) = resetEvs l := by
  simp [resetEvs]

theorem resetEvs_update (r : RegId) (m v : Nat) (l : List Event) :
    resetEvs (Event.updateBits r m v :: l) = resetEvs l := by
  simp [resetEvs]

theorem resetEvs_delay (n : Nat) (l : List Event) :
    resetEvs (Event.delayUs n :: l) = resetEvs l := by
  simp [resetEvs]

theorem resetEvs_clkE (i : Nat) (l : List Event) :
    resetEvs (Event.clkEnable i :: l) = resetEvs l := by
  simp [resetEvs]

theorem resetEvs_clkD (i : Nat) (l : List Event) :
    resetEvs (Event.clkDisable i :: l) = resetEvs l := by
  simp [resetEvs]

theorem resetEvs_lock (l : List Event) :
    resetEvs (Event.lockParent :: l) = resetEvs l := by
  simp [resetEvs]

theorem resetEvs_unlock (l : List Event) :
    resetEvs (Event.unlockParent :: l) = resetEvs l := by
  simp [resetEvs]

theorem regMutations_append (l1 l2 : List Event) (r : RegId) :
    regMutations (l1 ++ l2) r = regMutations l1 r ++ regMutations l2 r := by
  unfold regMutations
  exact List.filter_append _ _

theorem regMutations_cons_skip (e : Event) (l : List Event) (r : RegId)
    (h : writesReg e r = false) :
    regMutations (e :: l) r = regMutations l r := by
  simp [regMutations, List.filter_cons, h]

/-- The successful `gdsc_set_mode` body performs exactly one primary
write, preserving every 32-bit position other than the hw_control bit. -/
theorem set_mode_body_single_write (cfg : GdscConfig) (st : DrvState)
    (mode : GMode) (trace : Nat → Nat) :
    (gdsc_set_mode_body cfg st mode trace).ret = .ok →
    ∃ v, regMutations (gdsc_set_mode_body cfg st mode trace).evs
        RegId.primary = [Event.write RegId.primary v] ∧
      ∀ j, j < 32 → j ≠ 1 → v.testBit j = st.regs.primary.testBit j := by
  unfold gdsc_set_mode_body
  cases mode
  all_goals dsimp only
  · intro _
    refine ⟨st.regs.primary ||| HW_CONTROL_MASK, ?_,
      fun j hj hne => set_bit_testBit _ 1 j hne⟩
    simp [regMutations, writesReg]
  · split
    · split
      · intro _
        refine ⟨st.regs.primary &&& (U32_MASK ^^^ HW_CONTROL_MASK), ?_,
          fun j hj hne => clear_bit_testBit _ 1 j hj hne⟩
        rw [regMutations_append, regMutations_poll]
        simp [regMutations, writesReg]
      · intro hok
        exact absurd hok (by simp)
    · intro _
      refine ⟨st.regs.primary &&& (U32_MASK ^^^ HW_CONTROL_MASK), ?_,
        fun j hj hne => clear_bit_testBit _ 1 j hj hne⟩
      simp [regMutations, writesReg]
  · intro hok
    exact absurd hok (by simp)

/-! ## Vote-bit discipline machinery (C4) -/

theorem poll_voteSafe (cfg : GdscConfig) (want : Bool) (trace : Nat → Nat)
    (start k : Nat) :
    ((poll_gdsc_status cfg want trace start).2.2).all (voteSafe k) = true := by
  rw [List.all_eq_true]
  intro e he
  rcases pollGo_evs _ want trace cfg.gds_timeout start e he with h | h <;>
    simp [h, voteSafe]

theorem resetAssertMap_voteSafe (l : List Nat) (k : Nat) :
    ((l.map Event.resetAssert).all (voteSafe k)) = true := by
  rw [List.all_eq_true]
  intro e he
  simp only [List.mem_map] at he
  obtain ⟨i, _, rfl⟩ := he
  rfl

theorem resetDeassertMap_voteSafe (l : List Nat) (k : Nat) :
    ((l.map Event.resetDeassert).all (voteSafe k)) = true := by
  rw [List.all_eq_true]
  intro e he
  simp only [List.mem_map] at he
  obtain ⟨i, _, rfl⟩ := he
  rfl

theorem enable_sw_reset_voteSafe (cfg : GdscConfig) (regs : Regs)
    (rv k : Nat) :
    ((enable_sw_reset cfg regs rv).2.2).all (voteSafe k) = true := by
  cases h1 : cfg.has_sw_reset <;> cases h2 : cfg.has_acd_reset <;>
    cases h3 : cfg.has_acd_misc_reset <;>
    simp [enable_sw_reset, h1, h2, h3, voteSafe]

theorem enable_domain_addr_voteSafe (cfg : GdscConfig) (regs : Regs)
    (rv k : Nat) :
    ((enable_domain_addr cfg regs rv).2.2).all (voteSafe k) = true := by
  cases h1 : cfg.has_domain_addr <;> cases h2 : cfg.reset_aon <;>
    simp [enable_domain_addr, h1, h2, voteSafe]

theorem enable_seq_voteSafe (cfg : GdscConfig) (regs : Regs) (rv : Nat)
    (hv : cfg.has_collapse_vote = true) :
    ((enable_seq cfg regs rv).2.2).all (voteSafe cfg.vote_bit) = true := by
  unfold enable_seq
  dsimp only
  rw [(enable_collapse_vote cfg _ _ hv).2.2]
  simp [List.all_append, enable_sw_reset_voteSafe, enable_domain_addr_voteSafe,
    voteSafe]

theorem enable_seq_vote_value (cfg : GdscConfig) (regs : Regs) (rv : Nat)
    (hv : cfg.has_collapse_vote = true) :
    (enable_seq cfg regs rv).1.vote =
      (regs.vote &&& (U32_MASK ^^^ 2 ^ cfg.vote_bit)) |||
        ((U32_MASK ^^^ 2 ^ cfg.vote_bit) &&& 2 ^ cfg.vote_bit) := by
  unfold enable_seq
  dsimp only
  rw [(enable_collapse_vote cfg _ _ hv).2.1,
    (enable_domain_addr_frame cfg _ _).2,
    (enable_sw_reset_frame cfg _ _).2.1]

theorem gdsc_enable_tail_voteSafe (cfg : GdscConfig) (st : DrvState)
    (evs : List Event) (iters k : Nat)
    (hevs : evs.all (voteSafe k) = true) :
    ((gdsc_enable_tail cfg st evs iters).evs).all (voteSafe k) = true := by
  unfold gdsc_enable_tail
  dsimp only
  split <;> simp_all [List.all_append, voteSafe]

theorem gdsc_enable_post_regs (cfg : GdscConfig) (st : DrvState)
    (trace : Nat → Nat) (evs : List Event) (rv : Nat)
    (p1 : Bool × Nat × List Event) (hr : cfg.retain_ff_enable = false) :
    (gdsc_enable_post cfg st trace evs rv p1).st.regs = st.regs := by
  rcases gdsc_enable_post_cases cfg st trace evs rv p1 with
    ⟨e2, i2, r2, heq⟩ | hto
  · rw [heq, gdsc_enable_retain_no_retain _ _ _ _ _ hr]
    exact (gdsc_enable_tail_spec _ _ _ _).2.2.2.1
  · rw [hto.2]

theorem gdsc_enable_post_voteSafe (cfg : GdscConfig) (st : DrvState)
    (trace : Nat → Nat) (evs : List Event) (rv : Nat)
    (p1 : Bool × Nat × List Event) (k : Nat)
    (hr : cfg.retain_ff_enable = false)
    (hevs : evs.all (voteSafe k) = true)
    (hp1 : (p1.2.2).all (voteSafe k) = true) :
    ((gdsc_enable_post cfg st trace evs rv p1).evs).all (voteSafe k) =
      true := by
  unfold gdsc_enable_post
  dsimp only
  split
  · rw [gdsc_enable_retain_no_retain _ _ _ _ _ hr]
    exact gdsc_enable_tail_voteSafe cfg st _ _ k
      (by simp [List.all_append, hevs, hp1])
  · split
    · split
      · rw [gdsc_enable_retain_no_retain _ _ _ _ _ hr]
        exact gdsc_enable_tail_voteSafe cfg st _ _ k
          (by simp [List.all_append, hevs, hp1, voteSafe, poll_voteSafe])
      · simp [List.all_append, hevs, hp1, voteSafe, poll_voteSafe]
    · simp [List.all_append, hevs, hp1, voteSafe]

theorem updateBits_set_testBit (x k j : Nat) (hj : j < 32) (hne : j ≠ k) :
    ((x &&& (U32_MASK ^^^ 2 ^ k)) ||| 2 ^ k).testBit j = x.testBit j := by
  have := updateBits_testBit x (2 ^ k) k j hj hne
  simpa using this

theorem gdsc_enable_voteSafe (cfg : GdscConfig) (st : DrvState)
    (trace : Nat → Nat) (hv : cfg.has_collapse_vote = true)
    (hr : cfg.retain_ff_enable = false) :
    ((gdsc_enable cfg st trace).evs).all (voteSafe cfg.vote_bit) = true := by
  unfold gdsc_enable
  dsimp only
  split
  · rfl
  · split <;> split
    all_goals try (simp [voteSafe]; done)
    all_goals split
    all_goals try exact gdsc_enable_post_voteSafe _ _ _ _ _ _ _ hr (by simp [List.all_append, voteSafe, enable_seq_voteSafe _ _ _ hv]) (poll_voteSafe _ _ _ _ _)
    all_goals apply gdsc_enable_tail_voteSafe
    all_goals simp [List.all_append, voteSafe, resetDeassertMap_voteSafe]

theorem gdsc_enable_vote_value (cfg : GdscConfig) (st : DrvState)
    (trace : Nat → Nat) (hv : cfg.has_collapse_vote = true)
    (hr : cfg.retain_ff_enable = false) :
    (gdsc_enable cfg st trace).st.regs.vote = st.regs.vote ∨
    (gdsc_enable cfg st trace).st.regs.vote =
      (st.regs.vote &&& (U32_MASK ^^^ 2 ^ cfg.vote_bit)) |||
        ((U32_MASK ^^^ 2 ^ cfg.vote_bit) &&& 2 ^ cfg.vote_bit) := by
  unfold gdsc_enable
  dsimp only
  split
  · exact Or.inl rfl
  · split <;> split
    all_goals try (exact Or.inl rfl)
    all_goals split
    all_goals try (refine Or.inr ?_; rw [gdsc_enable_post_regs _ _ _ _ _ _ hr]; simpa using enable_seq_vote_value cfg _ _ hv)
    all_goals refine Or.inl ?_
    all_goals rw [(gdsc_enable_tail_spec _ _ _ _).2.2.2.1]

set_option maxHeartbeats 1600000 in
theorem gdsc_disable_body_voteSafe (cfg : GdscConfig) (st : DrvState)
    (trace : Nat → Nat) (hv : cfg.has_collapse_vote = true) :
    ((gdsc_disable_body cfg st trace).evs).all (voteSafe cfg.vote_bit) =
      true := by
  unfold gdsc_disable_body gdsc_disable_tail
  dsimp only
  iterate 8 (all_goals try split)
  all_goals simp_all [List.all_append, voteSafe, poll_voteSafe,
    resetAssertMap_voteSafe]

set_option maxHeartbeats 1600000 in
theorem gdsc_disable_body_vote_value (cfg : GdscConfig) (st : DrvState)
    (trace : Nat → Nat) (hv : cfg.has_collapse_vote = true) :
    (gdsc_disable_body cfg st trace).st.regs.vote = st.regs.vote ∨
    (gdsc_disable_body cfg st trace).st.regs.vote =
      (st.regs.vote &&& (U32_MASK ^^^ 2 ^ cfg.vote_bit)) |||
        2 ^ cfg.vote_bit := by
  unfold gdsc_disable_body gdsc_disable_tail
  dsimp only
  iterate 8 (all_goals try split)
  all_goals simp_all [Regs.setR]

theorem gdsc_disable_voteSafe (cfg : GdscConfig) (st : DrvState)
    (parent : Int) (trace : Nat → Nat)
    (hv : cfg.has_collapse_vote = true) :
    ((gdsc_disable cfg st parent trace).evs).all (voteSafe cfg.vote_bit) =
      true := by
  unfold gdsc_disable
  split
  · split
    · rfl
    · split
      · rfl
      · dsimp only
        simp [List.all_append, voteSafe,
          gdsc_disable_body_voteSafe cfg st trace hv]
  · exact gdsc_disable_body_voteSafe cfg st trace hv

theorem gdsc_disable_vote_value (cfg : GdscConfig) (st : DrvState)
    (parent : Int) (trace : Nat → Nat)
    (hv : cfg.has_collapse_vote = true) :
    (gdsc_disable cfg st parent trace).st.regs.vote = st.regs.vote ∨
    (gdsc_disable cfg st parent trace).st.regs.vote =
      (st.regs.vote &&& (U32_MASK ^^^ 2 ^ cfg.vote_bit)) |||
        2 ^ cfg.vote_bit := by
  unfold gdsc_disable
  split
  · split
    · exact Or.inl rfl
    · split
      · exact Or.inl rfl
      · dsimp only
        exact gdsc_disable_body_vote_value cfg st trace hv
  · exact gdsc_disable_body_vote_value cfg st trace hv

/-! ## Concrete fixtures for witnesses and counterexamples -/

/-- A plain register-toggled domain: no optional registers, no clocks,
no supply, `gds_timeout = 3`. -/
def cfgT : GdscConfig :=
  ⟨true, false, false, false, false, false, false, false, false, false,
   false, false, false, 0, 3, 0, 0, false⟩

/-- All registers zero, all runtime flags false. -/
def st0 : DrvState := ⟨⟨0, 0, 0, 0, 0, 0, 0⟩, false, false, false, false⟩

/-- A status register that always reports powered. -/
def trOn : Nat → Nat := fun _ => PWR_ON_MASK

/-- A status register that never reports powered. -/
def trOff : Nat → Nat := fun _ => 0

/-- Like `cfgT` but with a hardware-status (`hw_ctrl`) register. -/
def cfgHw : GdscConfig :=
  ⟨true, false, false, false, false, false, false, false, false, false,
   false, true, false, 0, 3, 0, 0, false⟩

/-- Like `cfgT` but with `force_root_en` (root clock index 0). -/
def cfgF : GdscConfig :=
  ⟨true, false, false, true, false, false, false, false, false, false,
   false, false, false, 0, 3, 0, 0, false⟩

/-- Like `cfgF` but additionally with a domain-address register. -/
def cfgFD : GdscConfig :=
  ⟨true, false, false, true, false, false, false, false, false, false,
   true, false, false, 0, 3, 0, 0, false⟩

/-- A reset-controlled domain with two reset lines. -/
def cfgR : GdscConfig :=
  ⟨false, false, false, false, false, false, false, false, false, false,
   false, false, false, 0, 3, 2, 0, false⟩

/-- A vote-configured domain (vote bit 3), no retention flops. -/
def cfgV : GdscConfig :=
  ⟨true, false, false, false, false, false, false, false, false, false,
   false, false, true, 3, 3, 0, 0, false⟩

/-- A vote-configured domain (vote bit 3) with retention flops and a
domain-address register — the C4 counterexample configuration. -/
def cfg4 : GdscConfig :=
  ⟨true, false, false, false, false, false, true, false, false, false,
   true, false, true, 3, 3, 0, 0, false⟩

/-- Initial state for the C4 counterexample: primary collapse bit set,
domain-address clamp set, vote bit 3 set. -/
def st4 : DrvState := ⟨⟨1, 1, 0, 0, 0, 8, 0⟩, false, false, false, false⟩

/-- Like `cfgT` but with a parent supply. -/
def cfgS : GdscConfig :=
  ⟨true, false, false, false, false, false, false, false, false, false,
   false, false, false, 0, 3, 0, 0, true⟩

/-! ## Claim theorems -/

/-- C7: the poll engine samples `register & PWR_ON_MASK` each iteration
against the polled register (the hardware-status register when the
domain has one, else the primary register); it succeeds as soon as the
bit's presence matches the expected polarity, performs exactly one
1-microsecond delay per failed sample, times out after `gds_timeout`
failed samples, and its event trace holds nothing but reads of the
polled register and 1us delays. -/
theorem poll_gdsc_status_contract (cfg : GdscConfig) (want : Bool)
    (trace : Nat → Nat) (start : Nat) :
    polledReg cfg = (if cfg.has_hw_ctrl then RegId.hwCtrlReg
                     else RegId.primary) ∧
    ((∀ i, i < cfg.gds_timeout → pwrOnBit (trace (start + i)) ≠ want) →
      poll_gdsc_status cfg want trace start =
        (false, cfg.gds_timeout,
         pollFailEvs (polledReg cfg) cfg.gds_timeout)) ∧
    (∀ j, j < cfg.gds_timeout → pwrOnBit (trace (start + j)) = want →
      (∀ i, i < j → pwrOnBit (trace (start + i)) ≠ want) →
      poll_gdsc_status cfg want trace start =
        (true, j + 1,
         pollFailEvs (polledReg cfg) j ++ [Event.read (polledReg cfg)])) ∧
    (∀ e ∈ (poll_gdsc_status cfg want trace start).2.2,
      e = Event.read (polledReg cfg) ∨ e = Event.delayUs 1) := by
  refine ⟨rfl, ?_, ?_, ?_⟩
  · intro h
    exact pollGo_timeout _ _ _ _ _ h
  · intro j hj hm hpre
    exact pollGo_success _ _ _ _ _ _ hj hm hpre
  · exact pollGo_evs _ _ _ _ _

/-- Witness for C7: a status register stuck at 0 exhausts a budget of 2
with two read/delay pairs. -/
theorem poll_gdsc_status_contract_witness :
    poll_gdsc_status
        ⟨true, false, false, false, false, false, false, false, false,
         false, false, false, false, 0, 2, 0, 0, false⟩
        true (fun _ => 0) 0 =
      (false, 2, pollFailEvs RegId.primary 2) :=
  (poll_gdsc_status_contract _ true (fun _ => 0) 0).2.1 (by decide)

/-- C1: when the primary register's hw_control bit is set at entry and
`skip_disable_before_enable` is false, `gdsc_enable` returns `-EBUSY`,
leaves every register unchanged, and its trace holds no register
mutation at all — in particular none to the primary collapse bit, the
domain-clamp register, or any reset register. -/
theorem gdsc_enable_busy (cfg : GdscConfig) (st : DrvState)
    (trace : Nat → Nat)
    (hskip : cfg.skip_disable_before_enable = false)
    (hbusy : st.regs.primary &&& HW_CONTROL_MASK ≠ 0) :
    (gdsc_enable cfg st trace).ret = .ebusy ∧
    (gdsc_enable cfg st trace).st.regs = st.regs ∧
    ∀ e ∈ (gdsc_enable cfg st trace).evs, isWrite e = false := by
  unfold gdsc_enable
  simp only [hskip, Bool.false_eq_true, if_false]
  split
  all_goals
    refine ⟨rfl, rfl, ?_⟩
    intro e he
    simp only [List.mem_append, List.mem_singleton, List.nil_append,
      List.mem_cons, List.not_mem_nil, or_false] at he
    first
      | (rcases he with he | he <;> subst he <;> rfl)
      | (subst he; rfl)

/-- Witness for C1: a domain whose primary register reads 0x2 is
rejected as busy. -/
theorem gdsc_enable_busy_witness :
    (gdsc_enable
        ⟨true, false, false, false, false, false, false, false, false,
         false, false, false, false, 0, 3, 0, 0, false⟩
        ⟨⟨2, 0, 0, 0, 0, 0, 0⟩, false, false, false, false⟩
        (fun _ => 0)).ret = .ebusy :=
  (gdsc_enable_busy _ _ (fun _ => 0) (by decide) (by decide)).1

/-- C2 (amended): for every domain NOT configured with
`skip_disable_before_enable`, a successful `gdsc_enable` is immediately
followed by `gdsc_is_enabled` reporting true, and a successful
`gdsc_disable` by `gdsc_is_enabled` reporting false.  (For
skip-configured domains the enable no-op succeeds but `gdsc_is_enabled`
still reports false — see the counterexample.) -/
theorem enable_disable_then_is_enabled (cfg : GdscConfig)
    (st st2 : DrvState) (trace trace2 : Nat → Nat) (parent : Int)
    (hskip : cfg.skip_disable_before_enable = false) :
    ((gdsc_enable cfg st trace).ret = .ok →
      gdsc_is_enabled cfg (gdsc_enable cfg st trace).st = true) ∧
    ((gdsc_disable cfg st2 parent trace2).ret = .ok →
      gdsc_is_enabled cfg (gdsc_disable cfg st2 parent trace2).st = false) :=
  ⟨enable_ok_is_enabled cfg st trace hskip,
   disable_ok_is_enabled cfg st2 parent trace2⟩

/-- Counterexample to C2 as frozen: on a `skip_disable_before_enable`
domain `gdsc_enable` returns success but the immediately following
`gdsc_is_enabled` reports false, not true. -/
theorem skip_domain_enable_ok_but_not_enabled :
    (gdsc_enable
        ⟨true, true, false, false, false, false, false, false, false,
         false, false, false, false, 0, 3, 0, 0, false⟩
        st0 trOn).ret = .ok ∧
    gdsc_is_enabled
        ⟨true, true, false, false, false, false, false, false, false,
         false, false, false, false, 0, 3, 0, 0, false⟩
        (gdsc_enable
          ⟨true, true, false, false, false, false, false, false, false,
           false, false, false, false, 0, 3, 0, 0, false⟩
          st0 trOn).st = false := by
  decide

/-- Witness for C2 (amended): on a plain register-toggled domain both
directions apply at a concrete input. -/
theorem enable_disable_then_is_enabled_witness :
    gdsc_is_enabled cfgT (gdsc_enable cfgT st0 trOn).st = true ∧
    gdsc_is_enabled cfgT (gdsc_disable cfgT st0 1 trOff).st = false :=
  ⟨(enable_disable_then_is_enabled cfgT st0 st0 trOn trOff 1 rfl).1
      (by decide),
   (enable_disable_then_is_enabled cfgT st0 st0 trOn trOff 1 rfl).2
      (by decide)⟩

/-- C3 (amended): with a status register that never reports the
expected polarity, `gdsc_enable` times out after exactly `gds_timeout`
poll iterations when no hardware-status register exists, and after
exactly `2 * gds_timeout` iterations (a full second poll attempt, not
±1 iteration) when one does; `gdsc_disable` (with status checking not
suppressed) times out after exactly `gds_timeout` iterations. -/
theorem timeout_iteration_counts (cfg : GdscConfig) (st st2 : DrvState)
    (parent : Int) (trace trace2 : Nat → Nat)
    (htog : cfg.toggle_logic = true)
    (hskip : cfg.skip_disable_before_enable = false)
    (hbusy : st.regs.primary &&& HW_CONTROL_MASK = 0)
    (hnostat : cfg.no_status_check_on_disable = false)
    (hpar : cfg.has_supply = true → 0 < parent) :
    ((∀ i, pwrOnBit (trace i) = false) →
      (gdsc_enable cfg st trace).ret = .etimedout ∧
      (gdsc_enable cfg st trace).pollIters =
        (if cfg.has_hw_ctrl then 2 * cfg.gds_timeout
         else cfg.gds_timeout)) ∧
    ((∀ i, pwrOnBit (trace2 i) = true) →
      (gdsc_disable cfg st2 parent trace2).ret = .etimedout ∧
      (gdsc_disable cfg st2 parent trace2).pollIters = cfg.gds_timeout) := by
  constructor
  · intro hn
    have h := gdsc_enable_timeout cfg st trace hskip htog hbusy hn
    exact ⟨h.1, h.2.1⟩
  · intro hn
    have h := gdsc_disable_timeout cfg st2 parent trace2 htog hnostat hpar hn
    exact ⟨h.1, h.2.1⟩

/-- Counterexample to C3 as frozen: with a hardware-status register and
`timeout_budget = 3`, a never-ready enable performs 6 poll iterations —
not within `timeout_budget` ± 1. -/
theorem hw_ctrl_timeout_doubles_iterations :
    (gdsc_enable cfgHw st0 trOff).ret = .etimedout ∧
    (gdsc_enable cfgHw st0 trOff).pollIters = 6 ∧
    cfgHw.gds_timeout = 3 ∧
    ¬((gdsc_enable cfgHw st0 trOff).pollIters ≤ cfgHw.gds_timeout + 1) := by
  decide

/-- Witness for C3 (amended) at a concrete domain without a
hardware-status register (3 iterations) and its disable (3 iterations). -/
theorem timeout_iteration_counts_witness :
    ((gdsc_enable cfgT st0 trOff).ret = .etimedout ∧
     (gdsc_enable cfgT st0 trOff).pollIters =
       (if cfgT.has_hw_ctrl then 2 * cfgT.gds_timeout
        else cfgT.gds_timeout)) ∧
    ((gdsc_disable cfgT st0 1 trOn).ret = .etimedout ∧
     (gdsc_disable cfgT st0 1 trOn).pollIters = cfgT.gds_timeout) :=
  ⟨(timeout_iteration_counts cfgT st0 st0 1 trOff trOn rfl rfl (by decide)
      rfl (fun h => by simp [cfgT] at h)).1 (fun i => by simp [trOff, pwrOnBit]),
   (timeout_iteration_counts cfgT st0 st0 1 trOff trOn rfl rfl (by decide)
      rfl (fun h => by simp [cfgT] at h)).2 (fun i => by norm_num [trOn, pwrOnBit, PWR_ON_MASK])⟩

/-- C5 (amended): for a force-root-enabled register-toggled domain, an
enable that fails by timeout after the busy-check passed returns with
the root clock still force-enabled: the trace holds the
`clk_prepare_enable` but no `clk_disable_unprepare`, and
`is_root_clk_voted` remains true.  (The force-enable/disable bracket is
NOT balanced on timeout paths; only a later `gdsc_disable` releases the
vote.) -/
theorem enable_timeout_keeps_root_clk (cfg : GdscConfig) (st : DrvState)
    (trace : Nat → Nat)
    (hforce : cfg.force_root_en = true)
    (hskip : cfg.skip_disable_before_enable = false)
    (htog : cfg.toggle_logic = true)
    (hbusy : st.regs.primary &&& HW_CONTROL_MASK = 0)
    (hnever : ∀ i, pwrOnBit (trace i) = false) :
    (gdsc_enable cfg st trace).ret = .etimedout ∧
    Event.clkEnable cfg.root_clk_idx ∈ (gdsc_enable cfg st trace).evs ∧
    (∀ i, Event.clkDisable i ∉ (gdsc_enable cfg st trace).evs) ∧
    (gdsc_enable cfg st trace).st.is_root_clk_voted = true := by
  have h := gdsc_enable_timeout cfg st trace hskip htog hbusy hnever
  exact ⟨h.1, h.2.2.2.2 (by simp [hforce]), h.2.2.2.1,
    by simp [h.2.2.1, hforce]⟩

/-- Counterexample to C5 as frozen: a concrete force-root-enabled domain
whose enable times out returns the error with the root clock still
enabled — no `clkDisable` event is ever emitted. -/
theorem enable_timeout_no_root_clk_release_cex :
    (gdsc_enable cfgF st0 trOff).ret = .etimedout ∧
    Event.clkEnable 0 ∈ (gdsc_enable cfgF st0 trOff).evs ∧
    Event.clkDisable 0 ∉ (gdsc_enable cfgF st0 trOff).evs ∧
    (gdsc_enable cfgF st0 trOff).st.is_root_clk_voted = true := by
  decide

/-- Witness for C5 (amended) at the same concrete domain. -/
theorem enable_timeout_keeps_root_clk_witness :
    (gdsc_enable cfgF st0 trOff).ret = .etimedout ∧
    Event.clkEnable cfgF.root_clk_idx ∈ (gdsc_enable cfgF st0 trOff).evs ∧
    (∀ i, Event.clkDisable i ∉ (gdsc_enable cfgF st0 trOff).evs) ∧
    (gdsc_enable cfgF st0 trOff).st.is_root_clk_voted = true :=
  enable_timeout_keeps_root_clk cfgF st0 trOff rfl rfl rfl (by decide)
    (fun i => by simp [trOff, pwrOnBit])

/-- C9: on a register-toggled domain (status checking enabled, parent
check passing) whose disable-status poll times out, `gdsc_disable` does
not abort: it returns the timeout error, yet still re-asserts the
memory I/O clamp when a domain-address register exists, still releases
the root clock when the root-clock condition holds, and still marks the
cached state disabled. -/
theorem disable_timeout_still_completes (cfg : GdscConfig) (st : DrvState)
    (parent : Int) (trace : Nat → Nat)
    (htog : cfg.toggle_logic = true)
    (hnostat : cfg.no_status_check_on_disable = false)
    (hpar : cfg.has_supply = true → 0 < parent)
    (hnever : ∀ i, pwrOnBit (trace i) = true) :
    (gdsc_disable cfg st parent trace).ret = .etimedout ∧
    (gdsc_disable cfg st parent trace).st.is_gdsc_enabled = false ∧
    (cfg.has_domain_addr = true →
      (gdsc_disable cfg st parent trace).st.regs.domainAddr =
        st.regs.domainAddr ||| GMEM_CLAMP_IO_MASK ∧
      Event.write .domainAddr (st.regs.domainAddr ||| GMEM_CLAMP_IO_MASK) ∈
        (gdsc_disable cfg st parent trace).evs) ∧
    (((st.is_root_clk_voted && cfg.root_en) || cfg.force_root_en) = true →
      (gdsc_disable cfg st parent trace).st.is_root_clk_voted = false ∧
      Event.clkDisable cfg.root_clk_idx ∈
        (gdsc_disable cfg st parent trace).evs) := by
  have h := gdsc_disable_timeout cfg st parent trace htog hnostat hpar hnever
  exact ⟨h.1, h.2.2.1, h.2.2.2.1, h.2.2.2.2⟩

/-- Witness for C9 at a concrete domain with a domain-address register
and `force_root_en`. -/
theorem disable_timeout_still_completes_witness :
    (gdsc_disable cfgFD st0 1 trOn).ret = .etimedout ∧
    (gdsc_disable cfgFD st0 1 trOn).st.is_gdsc_enabled = false ∧
    (gdsc_disable cfgFD st0 1 trOn).st.regs.domainAddr =
      st0.regs.domainAddr ||| GMEM_CLAMP_IO_MASK ∧
    (gdsc_disable cfgFD st0 1 trOn).st.is_root_clk_voted = false := by
  have h := disable_timeout_still_completes cfgFD st0 1 trOn rfl rfl
    (fun h => by simp [cfgFD] at h) (fun i => by simp [trOn, pwrOnBit]; decide)
  exact ⟨h.1, h.2.1, (h.2.2.1 rfl).1, (h.2.2.2 rfl).1⟩


/-- C6: on a domain with a parent supply, `gdsc_disable` and
`gdsc_set_mode` with the parent reporting not-enabled return `-EIO`
and leave the entire child state (all registers, all flags) untouched;
and on every input whatsoever both operations emit exactly as many
parent-lock events as parent-unlock events — no path returns with the
lock held. -/
theorem parent_gate_and_lock_balance (cfg : GdscConfig) (st st2 : DrvState)
    (mode : GMode) (trace trace2 : Nat → Nat) (parent : Int) :
    (cfg.has_supply = true →
      (gdsc_disable cfg st 0 trace).ret = .eio ∧
      (gdsc_disable cfg st 0 trace).st = st ∧
      (gdsc_set_mode cfg st2 0 mode trace2).ret = .eio ∧
      (gdsc_set_mode cfg st2 0 mode trace2).st = st2) ∧
    (gdsc_disable cfg st parent trace).evs.count Event.lockParent =
      (gdsc_disable cfg st parent trace).evs.count Event.unlockParent ∧
    (gdsc_set_mode cfg st2 parent mode trace2).evs.count Event.lockParent =
      (gdsc_set_mode cfg st2 parent mode trace2).evs.count
        Event.unlockParent := by
  refine ⟨?_, ?_, ?_⟩
  · intro hsup
    unfold gdsc_disable gdsc_set_mode
    rw [if_pos hsup, if_pos hsup]
    norm_num
  · have hb := all_notLock_count _ (gdsc_disable_body_notLock cfg st trace)
    unfold gdsc_disable
    split
    · split
      · simp
      · split
        · simp
        · dsimp only
          simp [List.count_cons, List.count_append, hb.1, hb.2]
    · exact hb.1.trans hb.2.symm
  · have hb := all_notLock_count _
      (gdsc_set_mode_body_notLock cfg st2 mode trace2)
    unfold gdsc_set_mode
    split
    · split
      · simp
      · split
        · simp
        · dsimp only
          simp [List.count_cons, List.count_append, hb.1, hb.2]
    · exact hb.1.trans hb.2.symm

/-- Witness for C6: a concrete child with a parent supply reporting
disabled is rejected with `-EIO` by both operations. -/
theorem parent_gate_and_lock_balance_witness :
    (gdsc_disable cfgS st0 0 trOn).ret = .eio ∧
    (gdsc_set_mode cfgS st0 0 GMode.fast trOn).ret = .eio :=
  ⟨((parent_gate_and_lock_balance cfgS st0 st0 .fast trOn trOn 0).1 rfl).1,
   ((parent_gate_and_lock_balance cfgS st0 st0 .fast trOn trOn 0).1
      rfl).2.2.1⟩


/-- C8: on a reset-controlled domain (`toggle_logic = false`, busy check
passing, parent check passing), `gdsc_enable` de-asserts the reset lines
in configured order 0..n-1 and marks resets not-asserted, while
`gdsc_disable` asserts them in reverse order n-1..0 and marks resets
asserted. -/
theorem reset_controlled_order (cfg : GdscConfig) (st st2 : DrvState)
    (parent : Int) (trace trace2 : Nat → Nat)
    (htog : cfg.toggle_logic = false)
    (hskip : cfg.skip_disable_before_enable = false)
    (hbusy : st.regs.primary &&& HW_CONTROL_MASK = 0)
    (hpar : cfg.has_supply = true → 0 < parent) :
    resetEvs (gdsc_enable cfg st trace).evs =
      (List.range cfg.reset_count).map Event.resetDeassert ∧
    (gdsc_enable cfg st trace).st.resets_asserted = false ∧
    resetEvs (gdsc_disable cfg st2 parent trace2).evs =
      ((List.range cfg.reset_count).reverse).map Event.resetAssert ∧
    (gdsc_disable cfg st2 parent trace2).st.resets_asserted = true := by
  have hen : resetEvs (gdsc_enable cfg st trace).evs =
      (List.range cfg.reset_count).map Event.resetDeassert ∧
      (gdsc_enable cfg st trace).st.resets_asserted = false := by
    unfold gdsc_enable gdsc_enable_tail
    simp only [hskip, Bool.false_eq_true, if_false]
    cases hroot : (cfg.root_en || cfg.force_root_en) <;>
      cases hforce : cfg.force_root_en <;>
      simp_all [htog, hbusy, resetEvs_append, resetEvs_nil, resetEvs_read,
        resetEvs_clkE, resetEvs_clkD, resetEvs_delay,
        resetEvs_deassert_map]
  have hdi : resetEvs (gdsc_disable cfg st2 parent trace2).evs =
      ((List.range cfg.reset_count).reverse).map Event.resetAssert ∧
      (gdsc_disable cfg st2 parent trace2).st.resets_asserted = true := by
    unfold gdsc_disable gdsc_disable_body gdsc_disable_tail
    split
    · have hp := hpar ‹cfg.has_supply = true›
      rw [if_neg (by omega), if_neg (by omega)]
      dsimp only
      cases hforce : cfg.force_root_en <;>
        cases hvote : st2.is_root_clk_voted <;>
        cases hroot : cfg.root_en <;>
        simp_all [htog, resetEvs_append, resetEvs_nil, resetEvs_read,
          resetEvs_clkE, resetEvs_clkD, resetEvs_delay, resetEvs_lock,
          resetEvs_unlock, resetEvs_assert_map, resetEvs_assert_map_reverse]
    · cases hforce : cfg.force_root_en <;>
        cases hvote : st2.is_root_clk_voted <;>
        cases hroot : cfg.root_en <;>
        simp_all [htog, resetEvs_append, resetEvs_nil, resetEvs_read,
          resetEvs_clkE, resetEvs_clkD, resetEvs_delay,
          resetEvs_assert_map, resetEvs_assert_map_reverse]
  exact ⟨hen.1, hen.2, hdi.1, hdi.2⟩

/-- Witness for C8: a two-line reset-controlled domain de-asserts 0 then
1 on enable and asserts 1 then 0 on disable. -/
theorem reset_controlled_order_witness :
    resetEvs (gdsc_enable cfgR st0 trOn).evs =
      [Event.resetDeassert 0, Event.resetDeassert 1] ∧
    resetEvs (gdsc_disable cfgR st0 1 trOff).evs =
      [Event.resetAssert 1, Event.resetAssert 0] := by
  have h := reset_controlled_order cfgR st0 st0 1 trOn trOff rfl rfl
    (by decide) (fun h => by simp [cfgR] at h)
  exact ⟨by rw [h.1]; decide, by rw [h.2.2.1]; decide⟩


/-- C10: every successful `gdsc_set_mode` call (either mode) performs
exactly one mutation of the primary control register — a single full
write whose value agrees with the value just read on every 32-bit
position except bit 1 (hw_control), so collapse, sw_override, retain,
clk_dis_wait and status bits are preserved. -/
theorem set_mode_single_write_frame (cfg : GdscConfig) (st : DrvState)
    (parent : Int) (mode : GMode) (trace : Nat → Nat) :
    (gdsc_set_mode cfg st parent mode trace).ret = .ok →
    ∃ v, regMutations (gdsc_set_mode cfg st parent mode trace).evs
        RegId.primary = [Event.write RegId.primary v] ∧
      ∀ j, j < 32 → j ≠ 1 → v.testBit j = st.regs.primary.testBit j := by
  unfold gdsc_set_mode
  split
  · split
    · intro hok
      exact absurd hok (by simp)
    · split
      · intro hok
        exact absurd hok (by simp)
      · dsimp only
        intro hok
        obtain ⟨v, h1, h2⟩ := set_mode_body_single_write cfg st mode trace hok
        refine ⟨v, ?_, h2⟩
        rw [regMutations_append,
          regMutations_cons_skip Event.lockParent _ RegId.primary rfl, h1]
        simp [regMutations, writesReg]
  · exact set_mode_body_single_write cfg st mode trace

/-- Witness for C10: switching a concrete domain to hardware-autonomous
mode writes back exactly the read value with only bit 1 set. -/
theorem set_mode_single_write_frame_witness :
    ∃ v, regMutations (gdsc_set_mode cfgT st0 1 GMode.fast trOn).evs
        RegId.primary = [Event.write RegId.primary v] ∧
      ∀ j, j < 32 → j ≠ 1 → v.testBit j = st0.regs.primary.testBit j :=
  set_mode_single_write_frame cfgT st0 1 GMode.fast trOn (by decide)


/-- C4 (amended): for a vote-configured domain WITHOUT retention flops,
every register mutation of `gdsc_enable` and `gdsc_disable` avoids the
primary register entirely, every vote-register mutation is a masked
update confined to bit k, and every vote-register bit other than k is
preserved.  (With `retain_ff_enable` the claim fails: see the
counterexample — enable writes the full primary register with a stale
value.) -/
theorem vote_bit_discipline (cfg : GdscConfig) (st st2 : DrvState)
    (parent : Int) (trace trace2 : Nat → Nat)
    (hv : cfg.has_collapse_vote = true)
    (hr : cfg.retain_ff_enable = false) :
    ((gdsc_enable cfg st trace).evs).all (voteSafe cfg.vote_bit) = true ∧
    ((gdsc_disable cfg st2 parent trace2).evs).all
      (voteSafe cfg.vote_bit) = true ∧
    (∀ j, j < 32 → j ≠ cfg.vote_bit →
      ((gdsc_enable cfg st trace).st.regs.vote).testBit j =
        (st.regs.vote).testBit j) ∧
    (∀ j, j < 32 → j ≠ cfg.vote_bit →
      ((gdsc_disable cfg st2 parent trace2).st.regs.vote).testBit j =
        (st2.regs.vote).testBit j) := by
  refine ⟨gdsc_enable_voteSafe cfg st trace hv hr,
    gdsc_disable_voteSafe cfg st2 parent trace2 hv, ?_, ?_⟩
  · intro j hj hne
    rcases gdsc_enable_vote_value cfg st trace hv hr with h | h
    · rw [h]
    · rw [h]
      exact updateBits_testBit _ _ _ _ hj hne
  · intro j hj hne
    rcases gdsc_disable_vote_value cfg st2 parent trace2 hv with h | h
    · rw [h]
    · rw [h]
      exact updateBits_set_testBit _ _ _ hj hne

/-- Counterexample to C4 as frozen: with `retain_ff_enable` configured
on a vote domain with a domain-address register, a successful enable
writes the full primary register (source lines 313-316) using the stale
`regval` last read from the domain-address register — the write value
0x800 flips the primary collapse bit from 1 to 0. -/
theorem retain_ff_writes_primary_collapse_bit :
    (gdsc_enable cfg4 st4 trOn).ret = .ok ∧
    Event.write RegId.primary 2048 ∈ (gdsc_enable cfg4 st4 trOn).evs ∧
    st4.regs.primary &&& SW_COLLAPSE_MASK = 1 ∧
    (gdsc_enable cfg4 st4 trOn).st.regs.primary &&& SW_COLLAPSE_MASK =
      0 := by
  decide

/-- Witness for C4 (amended) at a concrete vote domain. -/
theorem vote_bit_discipline_witness :
    ((gdsc_enable cfgV st4 trOn).evs).all (voteSafe cfgV.vote_bit) =
      true ∧
    ((gdsc_disable cfgV st4 1 trOff).evs).all (voteSafe cfgV.vote_bit) =
      true :=
  ⟨(vote_bit_discipline cfgV st4 st4 1 trOn trOff rfl rfl).1,
   (vote_bit_discipline cfgV st4 st4 1 trOn trOff rfl rfl).2.1⟩

end Gdsc

